import Mathlib

/-!
Verification of the redislock lock lifecycle (danielstjules/redislock).

The definitions below are a shallow embedding of the current revision of
`lib/lock.js` and `src/redislock.js`: a `Lock` record mirrors the mutable
instance fields (`_id`, `_locked`, `_key`, `timeout`, `retries`, `delay`),
the process-wide registry `Lock._acquiredLocks` is carried alongside as a
list of lock ids, and the asynchronous store is abstracted by passing the
store's responses (the boolean result of `SET ... PX .. NX`, and the 0/1
result of the `delifequal` / `pexpireifequal` lua scripts) as explicit
arguments.  JavaScript dynamic values relevant to the code's argument
checks (`!time`, `time !== parseInt(time, 10)`, `parseInt(options[key])`)
are modelled by the small `JSVal` type together with `jsTruthy`,
`jsStrictEq` and `jsParseInt`.
-/

/-- A JavaScript value, restricted to the shapes the embedded code can
actually receive: integral numbers, `NaN`, strings, booleans, `null` and
`undefined`. -/
inductive JSVal where
  | vint (n : Int)
  | vnan
  | vstr (s : String)
  | vbool (b : Bool)
  | vnull
  | vundef
deriving Repr, DecidableEq

/-- JavaScript truthiness of a `JSVal` (`!v` is `!jsTruthy v`):
`0`, `NaN`, `""`, `false`, `null` and `undefined` are falsy. -/
def jsTruthy : JSVal → Bool
  | JSVal.vint n => n ≠ 0
  | JSVal.vnan => false
  | JSVal.vstr s => s ≠ ""
  | JSVal.vbool b => b
  | JSVal.vnull => false
  | JSVal.vundef => false

/-- JavaScript strict equality `===` on `JSVal`; `NaN === x` is always
false, and values of different types are never strictly equal. -/
def jsStrictEq : JSVal → JSVal → Bool
  | JSVal.vint a, JSVal.vint b => a = b
  | JSVal.vstr a, JSVal.vstr b => a = b
  | JSVal.vbool a, JSVal.vbool b => a = b
  | JSVal.vnull, JSVal.vnull => true
  | JSVal.vundef, JSVal.vundef => true
  | _, _ => false

/-- Value of the longest decimal-digit prefix of a character list, or
`none` when it is empty (the accumulator starts at `none`). -/
def digitsPrefixVal : List Char → Option Nat → Option Nat
  | [], acc => acc
  | c :: cs, acc =>
    if c.isDigit then
      digitsPrefixVal cs (some ((acc.getD 0) * 10 + (c.toNat - 48)))
    else acc

/-- Digit parsing after whitespace skipping: an optional sign followed
by the longest digit prefix; `NaN` when no digits follow. -/
def parseIntChars : List Char → JSVal
  | '-' :: rest =>
    match digitsPrefixVal rest none with
    | some n => JSVal.vint (-(n : Int))
    | none => JSVal.vnan
  | '+' :: rest =>
    match digitsPrefixVal rest none with
    | some n => JSVal.vint (n : Int)
    | none => JSVal.vnan
  | cs =>
    match digitsPrefixVal cs none with
    | some n => JSVal.vint (n : Int)
    | none => JSVal.vnan

/-- `parseInt(s, 10)` on a string: skip leading spaces, read an optional
sign and then the longest digit prefix; `NaN` when no digits follow. -/
def parseIntStr (s : String) : JSVal :=
  parseIntChars (s.toList.dropWhile (fun c => c = ' '))

/-- `parseInt(v, 10)` on a `JSVal`: numbers parse to themselves, strings
through `parseIntStr`; booleans, `null`, `undefined` and `NaN` stringify
to digit-free text and give `NaN`. -/
def jsParseInt : JSVal → JSVal
  | JSVal.vint n => JSVal.vint n
  | JSVal.vnan => JSVal.vnan
  | JSVal.vstr s => parseIntStr s
  | JSVal.vbool _ => JSVal.vnan
  | JSVal.vnull => JSVal.vnan
  | JSVal.vundef => JSVal.vnan

/-- The three error classes of `lib/errors.js`, each carrying its
message. -/
inductive RLError where
  | lockAcquisitionError (msg : String)
  | lockReleaseError (msg : String)
  | lockExtendError (msg : String)
deriving Repr, DecidableEq

/-- The mutable fields of a `Lock` instance (`lib/lock.js` constructor):
`this._id`, `this._locked`, `this._key`, and the three options copied
from `Lock._defaults` / the caller's options object. -/
structure Lock where
  id : String
  locked : Bool
  key : Option String
  timeout : Int
  retries : Int
  delay : Int
deriving Repr, DecidableEq

/-- A lock instance together with the process-wide registry
`Lock._acquiredLocks`, modelled as the list of registered lock ids. -/
structure ProcState where
  lock : Lock
  registry : List String
deriving Repr, DecidableEq

/-- `Lock._acquiredLocks[lock._id] = lock`: property assignment on the
registry object, idempotent on the key set. -/
def registryInsert (id : String) (reg : List String) : List String :=
  if id ∈ reg then reg else reg ++ [id]

/-- `delete Lock._acquiredLocks[lock._id]`. -/
def registryRemove (id : String) (reg : List String) : List String :=
  reg.filter (fun x => x ≠ id)

/-- The string JavaScript interpolates for `this._key` in error messages
(`null` stringifies to `"null"`; when locked the key is a string). -/
def keyStr : Option String → String
  | some k => k
  | none => "null"

/-- A freshly constructed instance: `this._locked = false`,
`this._key = null` (`lib/lock.js` constructor), with an empty process
registry. -/
def initState (id : String) (timeout retries delay : Int) : ProcState :=
  { lock := { id := id, locked := false, key := none,
              timeout := timeout, retries := retries, delay := delay },
    registry := [] }

/-- Decision taken by one iteration of `_attemptLock` after the store
answers the `SET key id PX ttl NX` request. -/
inductive AttemptResult where
  | success
  | exhausted (msg : String)
  | pending (nextRetries : Int)
deriving Repr, DecidableEq

/-- One iteration of `Lock.prototype._attemptLock` (lib/lock.js): given
the remaining `retries` and the store's response `res`, either throw
`LockAcquisitionError` (`!res && !retries`, i.e. the set failed and the
numeric counter is `0`), succeed, or schedule a recursive call with
`retries - 1` after the configured delay. -/
def attemptStep (key : String) (retries : Int) (res : Bool) : AttemptResult :=
  if res = false ∧ retries = 0 then
    AttemptResult.exhausted ("Could not acquire lock on \"" ++ key ++ "\"")
  else if res = true then
    AttemptResult.success
  else
    AttemptResult.pending (retries - 1)

/-- Overall outcome of driving `_attemptLock` against a finite prefix of
store responses: acquired, failed with a `LockAcquisitionError` message,
or still retrying when the supplied responses ran out. -/
inductive DriveOutcome where
  | ok
  | failed (msg : String)
  | noResponse
deriving Repr, DecidableEq

/-- Run of `_attemptLock`: consumes one store response per attempt and
returns the outcome, the number of `SET` attempts issued, and the total
delay (`Promise.delay(lock.delay)` before each retry) incurred. -/
def attemptLockRun (key : String) (delay : Int) : Int → List Bool → DriveOutcome × Nat × Int
  | _, [] => (DriveOutcome.noResponse, 0, 0)
  | retries, res :: rest =>
    match attemptStep key retries res with
    | AttemptResult.success => (DriveOutcome.ok, 1, 0)
    | AttemptResult.exhausted msg => (DriveOutcome.failed msg, 1, 0)
    | AttemptResult.pending next =>
      match attemptLockRun key delay next rest with
      | (o, n, d) => (o, n + 1, d + delay)

/-- Result of `Lock.prototype.acquire`: the settled outcome (`none` when
the retry driver is still awaiting store responses), the instance and
registry afterwards, the number of conditional `SET` attempts issued,
and the total retry delay incurred. -/
structure AcqResult where
  outcome : Option (Except RLError Unit)
  state : ProcState
  setAttempts : Nat
  totalDelay : Int
deriving Repr

/-- `Lock.prototype.acquire` (current revision of lib/lock.js): reject
with `LockAcquisitionError` when `lock._locked` without touching the
store; otherwise drive `_attemptLock` and, on success, set `_locked`,
`_key` and register the instance in `Lock._acquiredLocks`. -/
def Lock.acquire (s : ProcState) (key : String) (responses : List Bool) : AcqResult :=
  if s.lock.locked then
    { outcome := some (Except.error (RLError.lockAcquisitionError "Lock already held")),
      state := s, setAttempts := 0, totalDelay := 0 }
  else
    match attemptLockRun key s.lock.delay s.lock.retries responses with
    | (DriveOutcome.ok, n, d) =>
      { outcome := some (Except.ok ()),
        state := { lock := { s.lock with locked := true, key := some key },
                   registry := registryInsert s.lock.id s.registry },
        setAttempts := n, totalDelay := d }
    | (DriveOutcome.failed msg, n, d) =>
      { outcome := some (Except.error (RLError.lockAcquisitionError msg)),
        state := s, setAttempts := n, totalDelay := d }
    | (DriveOutcome.noResponse, n, d) =>
      { outcome := none, state := s, setAttempts := n, totalDelay := d }

/-- Result of `release` / `extend`: the settled outcome, the instance
and registry afterwards, and the number of conditional lua script
invocations issued against the store. -/
structure OpResult where
  outcome : Except RLError Unit
  state : ProcState
  scriptCalls : Nat
deriving Repr

/-- `Lock.prototype.release` (current revision of lib/lock.js): reject
with `LockReleaseError` when not `_locked`, without running the
`delifequal` script; otherwise run it, clear `_locked` and `_key`,
delete the registry entry, and throw `LockReleaseError` about the
expired lock when the script reports no match (`!res`). -/
def Lock.release (s : ProcState) (scriptRes : Bool) : OpResult :=
  if s.lock.locked = false then
    { outcome := Except.error (RLError.lockReleaseError "Lock has not been acquired"),
      state := s, scriptCalls := 0 }
  else
    let s' : ProcState :=
      { lock := { s.lock with locked := false, key := none },
        registry := registryRemove s.lock.id s.registry }
    if scriptRes then
      { outcome := Except.ok (), state := s', scriptCalls := 1 }
    else
      { outcome := Except.error (RLError.lockReleaseError
          ("Lock on \"" ++ keyStr s.lock.key ++ "\" had expired")),
        state := s', scriptCalls := 1 }

/-- `Lock.prototype.extend` (current revision of lib/lock.js): reject
with `LockExtendError` when `!time || time !== parseInt(time, 10)` or
when not `_locked`, without running a script; otherwise run
`pexpireifequal` and, when it reports no match (`!res`), clear
`_locked`/`_key`, delete the registry entry, and throw the
expired-lock `LockExtendError`. -/
def Lock.extend (s : ProcState) (time : JSVal) (scriptRes : Bool) : OpResult :=
  if jsTruthy time = false ∨ jsStrictEq time (jsParseInt time) = false then
    { outcome := Except.error (RLError.lockExtendError "Int time is required to extend lock"),
      state := s, scriptCalls := 0 }
  else if s.lock.locked = false then
    { outcome := Except.error (RLError.lockExtendError "Lock has not been acquired"),
      state := s, scriptCalls := 0 }
  else if scriptRes then
    { outcome := Except.ok (), state := s, scriptCalls := 1 }
  else
    { outcome := Except.error (RLError.lockExtendError
        ("Lock on \"" ++ keyStr s.lock.key ++ "\" had expired")),
      state := { lock := { s.lock with locked := false, key := none },
                 registry := registryRemove s.lock.id s.registry },
      scriptCalls := 1 }

/-- One lifecycle operation on a lock instance, with the store responses
it consumes. -/
inductive Op where
  | acquire (key : String) (responses : List Bool)
  | release (scriptRes : Bool)
  | extend (time : JSVal) (scriptRes : Bool)
deriving Repr, DecidableEq

/-- State reached after running one operation. -/
def step (s : ProcState) : Op → ProcState
  | Op.acquire key responses => (Lock.acquire s key responses).state
  | Op.release scriptRes => (Lock.release s scriptRes).state
  | Op.extend time scriptRes => (Lock.extend s time scriptRes).state

/-- The invariant of claim C4: the `_key` field is non-null exactly when
`_locked` holds. -/
def keyInv (s : ProcState) : Prop :=
  s.lock.key.isSome = s.lock.locked

/-- `Lock._defaults` of the current revision (timeout 10000, retries 0,
delay 50), as the enumerable own properties of the defaults object. -/
def lockDefaults : List (String × JSVal) :=
  [("timeout", JSVal.vint 10000), ("retries", JSVal.vint 0), ("delay", JSVal.vint 50)]

/-- `setDefaults` (src/redislock.js): iterate the keys of
`Lock._defaults`; for each, when `options[key] !== null && options[key]
!== undefined`, overwrite the default with `parseInt(options[key], 10)`.
The options object is modelled as its total property lookup, absent
properties reading `undefined`. -/
def setDefaults (dflts : List (String × JSVal)) (options : String → JSVal) : List (String × JSVal) :=
  dflts.map (fun p =>
    if options p.1 = JSVal.vnull ∨ options p.1 = JSVal.vundef then p
    else (p.1, jsParseInt (options p.1)))

/-- Property lookup in the modelled defaults object. -/
def lookupVal (k : String) (l : List (String × JSVal)) : Option JSVal :=
  (l.find? (fun p => p.1 = k)).map Prod.snd

/-- The static properties defined on `Lock` in the first revision of
lib/lock.js: `_defaults`, `_promisifiedClients`, `_shavaluators` and
`_acquiredLocks` — and no `_activeLocks`. -/
def lockV1StaticNames : List String :=
  ["_defaults", "_promisifiedClients", "_shavaluators", "_acquiredLocks"]

/-- Outcome of a call in the first revision, where the success branch
can crash with a `TypeError`. -/
inductive JsOutcome where
  | ok
  | rejected (e : RLError)
  | typeError (msg : String)
deriving Repr, DecidableEq

/-- `Lock.prototype.acquire` of the FIRST revision of lib/lock.js.  The
`this.locked` precondition there builds a rejected promise but does not
return it, so control always reaches `client.setAsync`; on a successful
set the branch runs `Lock._activeLocks[lock.id] = lock`, a property
store on `Lock._activeLocks`, which is `undefined` because that name is
not among the statics defined in that revision. -/
def acquireV1 (_locked : Bool) (key : String) (setRes : Bool) : JsOutcome :=
  if setRes = false then
    JsOutcome.rejected (RLError.lockAcquisitionError ("Could not acquire lock on " ++ key))
  else if "_activeLocks" ∈ lockV1StaticNames then
    JsOutcome.ok
  else
    JsOutcome.typeError "Cannot set properties of undefined"

/-- A concrete instance holding the lock on `resource:a`, used by the
closed witnesses and counterexamples below. -/
def exLockedState : ProcState :=
  { lock := { id := "id-1", locked := true, key := some "resource:a",
              timeout := 10000, retries := 0, delay := 50 },
    registry := ["id-1"] }

/-- A concrete freshly constructed instance. -/
def exFreshState : ProcState := initState "id-2" 10000 0 50

/-- C2: when the instance is already `Locked`, `acquire` fails at once
with `LockAcquisitionError "Lock already held"`, issues no conditional
`SET` attempt, incurs no delay, and leaves the instance state, key and
registry entry untouched. -/
theorem Lock.acquire_already_held (s : ProcState) (key : String)
    (responses : List Bool) (h : s.lock.locked = true) :
    Lock.acquire s key responses =
      { outcome := some (Except.error (RLError.lockAcquisitionError "Lock already held")),
        state := s, setAttempts := 0, totalDelay := 0 } := by
  simp [Lock.acquire, h]

/-- Witness for C2 at a concrete held lock. -/
theorem Lock.acquire_already_held_w :
    Lock.acquire exLockedState "resource:b" [true] =
      { outcome := some (Except.error (RLError.lockAcquisitionError "Lock already held")),
        state := exLockedState, setAttempts := 0, totalDelay := 0 } :=
  Lock.acquire_already_held exLockedState "resource:b" [true] rfl

/-- C6: when the instance is `Unlocked`, `release` fails with
`LockReleaseError "Lock has not been acquired"` without invoking the
`delifequal` script and without changing any state. -/
theorem Lock.release_not_acquired (s : ProcState) (res : Bool)
    (h : s.lock.locked = false) :
    Lock.release s res =
      { outcome := Except.error (RLError.lockReleaseError "Lock has not been acquired"),
        state := s, scriptCalls := 0 } := by
  simp [Lock.release, h]

/-- Witness for C6 at a concrete fresh lock. -/
theorem Lock.release_not_acquired_w :
    Lock.release exFreshState true =
      { outcome := Except.error (RLError.lockReleaseError "Lock has not been acquired"),
        state := exFreshState, scriptCalls := 0 } :=
  Lock.release_not_acquired exFreshState true rfl

/-- C1: on a `Locked` instance, `release` always clears the local state
after the `delifequal` script settles — `_locked` becomes false, `_key`
becomes null, the registry entry is deleted — on both the match and the
no-match outcome; on no-match it fails with the expired-lock
`LockReleaseError`, and on match it succeeds. -/
theorem Lock.release_locked_is_terminal (s : ProcState) (res : Bool)
    (h : s.lock.locked = true) :
    (Lock.release s res).state.lock.locked = false
    ∧ (Lock.release s res).state.lock.key = none
    ∧ (Lock.release s res).state.registry = registryRemove s.lock.id s.registry
    ∧ (Lock.release s res).scriptCalls = 1
    ∧ (Lock.release s false).outcome = Except.error (RLError.lockReleaseError
        ("Lock on \"" ++ keyStr s.lock.key ++ "\" had expired"))
    ∧ (Lock.release s true).outcome = Except.ok () := by
  cases res <;> simp [Lock.release, h]

/-- Witness for C1 at a concrete held lock whose script reports
no match. -/
theorem Lock.release_locked_is_terminal_w :
    (Lock.release exLockedState false).state.lock.key = none
    ∧ (Lock.release exLockedState false).state.lock.locked = false
    ∧ (Lock.release exLockedState false).state.registry = []
    ∧ (Lock.release exLockedState false).outcome = Except.error
        (RLError.lockReleaseError "Lock on \"resource:a\" had expired") := by
  have h := Lock.release_locked_is_terminal exLockedState false rfl
  exact ⟨h.2.1, h.1, by simpa [exLockedState, registryRemove] using h.2.2.1,
    by simpa [exLockedState, keyStr] using h.2.2.2.2.1⟩

/-- C5: with `retries = 0` and an `Unlocked` instance, an acquisition
whose single conditional `SET` is denied makes exactly one attempt,
incurs no delay, fails with the could-not-acquire
`LockAcquisitionError`, and leaves all state untouched. -/
theorem Lock.acquire_zero_retries_one_attempt (s : ProcState) (key : String)
    (h1 : s.lock.locked = false) (h2 : s.lock.retries = 0) :
    Lock.acquire s key [false] =
      { outcome := some (Except.error (RLError.lockAcquisitionError
          ("Could not acquire lock on \"" ++ key ++ "\""))),
        state := s, setAttempts := 1, totalDelay := 0 } := by
  simp [Lock.acquire, h1, h2, attemptLockRun, attemptStep]

/-- Witness for C5 at a concrete fresh lock with `retries = 0`. -/
theorem Lock.acquire_zero_retries_one_attempt_w :
    Lock.acquire exFreshState "resource:c" [false] =
      { outcome := some (Except.error (RLError.lockAcquisitionError
          "Could not acquire lock on \"resource:c\"")),
        state := exFreshState, setAttempts := 1, totalDelay := 0 } :=
  Lock.acquire_zero_retries_one_attempt exFreshState "resource:c" rfl rfl

/-- C10: in the first revision of lib/lock.js, the success branch of
`acquire` writes into `Lock._activeLocks`, a name never defined among
that revision's statics, so a successful conditional `SET` ends in a
`TypeError` and the call can never complete with `ok`; the only
non-crashing outcome is the rejected could-not-acquire error. -/
theorem acquireV1_success_path_crashes (b : Bool) (key : String) :
    acquireV1 b key true = JsOutcome.typeError "Cannot set properties of undefined"
    ∧ lockV1StaticNames.contains "_activeLocks" = false
    ∧ acquireV1 b key false =
        JsOutcome.rejected (RLError.lockAcquisitionError
          ("Could not acquire lock on " ++ key)) := by
  refine ⟨?_, by decide, by simp [acquireV1]⟩
  simp [acquireV1, lockV1StaticNames]

/-- C3 counterexample: with the unbounded sentinel `-1`, a failed
attempt recurses with `retries - 1 = -2`, not with the sentinel
unchanged — `_attemptLock` always passes `retries - 1` onward. -/
theorem attemptStep_unbounded_decrements_cex :
    attemptStep "resource:a" (-1) false = AttemptResult.pending (-2)
    ∧ ((-2 : Int) ≠ -1) := by
  exact ⟨rfl, by decide⟩

/-- Helper for C3: a negative retries counter never satisfies the
`!res && !retries` exhaustion test, so a failed attempt always retries,
with the counter decremented by one. -/
theorem attemptStep_neg (key : String) (r : Int) (hr : r < 0) :
    attemptStep key r false = AttemptResult.pending (r - 1) := by
  have h0 : ¬ (r = 0) := by omega
  simp [attemptStep, h0]

/-- Helper for C3: peeling one failed attempt off the driver leaves the
outcome of the rest of the run. -/
theorem attemptLockRun_neg_cons (key : String) (delay : Int) (r : Int)
    (hr : r < 0) (rest : List Bool) :
    (attemptLockRun key delay r (false :: rest)).1 =
      (attemptLockRun key delay (r - 1) rest).1 := by
  simp only [attemptLockRun]
  rw [attemptStep_neg key r hr]

/-- C3 (amended): with any negative retries value (the unbounded
sentinel `-1` in particular) the driver keeps retrying after every
denied `SET` — after any number of failures it has neither succeeded
nor failed, it is still awaiting responses — but each recursive attempt
receives `retries - 1`, a decremented (still negative) counter, not the
unchanged sentinel. -/
theorem attemptLock_unbounded_keeps_retrying (r : Int) (h : r < 0)
    (key : String) (delay : Int) (n : Nat) :
    (attemptLockRun key delay r (List.replicate n false)).1 = DriveOutcome.noResponse
    ∧ attemptStep key r false = AttemptResult.pending (r - 1)
    ∧ r - 1 < 0 := by
  refine ⟨?_, attemptStep_neg key r h, by omega⟩
  induction n generalizing r with
  | zero => simp [attemptLockRun]
  | succ m ih =>
    rw [List.replicate_succ, attemptLockRun_neg_cons key delay r h]
    exact ih (r - 1) (by omega)

/-- Witness for C3's amended theorem at the sentinel `-1` with three
denied attempts. -/
theorem attemptLock_unbounded_keeps_retrying_w :
    (attemptLockRun "resource:a" 50 (-1) (List.replicate 3 false)).1 =
      DriveOutcome.noResponse
    ∧ attemptStep "resource:a" (-1) false = AttemptResult.pending (-1 - 1)
    ∧ (-1 : Int) - 1 < 0 :=
  attemptLock_unbounded_keeps_retrying (-1) (by decide) "resource:a" 50 3

/-- Helper for C4: the invariant holds in the constructed state. -/
theorem keyInv_init (id : String) (t r d : Int) : keyInv (initState id t r d) := by
  simp [keyInv, initState]

/-- Helper for C4: every operation preserves the key/locked
invariant. -/
theorem keyInv_step (s : ProcState) (op : Op) (h : keyInv s) : keyInv (step s op) := by
  cases op with
  | acquire key responses =>
    simp only [step]
    unfold Lock.acquire
    split
    · exact h
    · split
      · simp [keyInv]
      · exact h
      · exact h
  | release scriptRes =>
    simp only [step]
    unfold Lock.release
    split
    · exact h
    · split <;> simp [keyInv]
  | extend time scriptRes =>
    simp only [step]
    unfold Lock.extend
    split
    · exact h
    · split
      · exact h
      · split
        · exact h
        · simp [keyInv]

/-- C4: along every sequence of acquire/release/extend operations from
a freshly constructed instance, `_key` is non-null exactly when the
state is `Locked`: the constructor starts unlocked with a null key, a
successful acquire sets both together, and every transition to
unlocked clears the key in the same step. -/
theorem Lock.key_nonnull_iff_locked (id : String) (timeout retries delay : Int)
    (ops : List Op) :
    keyInv (ops.foldl step (initState id timeout retries delay)) := by
  have gen : ∀ (l : List Op) (s : ProcState), keyInv s → keyInv (l.foldl step s) := by
    intro l
    induction l with
    | nil => intro s hs; exact hs
    | cons op rest ih => intro s hs; exact ih _ (keyInv_step s op hs)
  exact gen ops _ (keyInv_init id timeout retries delay)

/-- C8 counterexample: `extend` does mutate the registry — on a held
lock whose `pexpireifequal` script reports no match, the instance's
registry entry is removed. -/
theorem Lock.extend_removes_registry_cex :
    exLockedState.registry = ["id-1"]
    ∧ (Lock.extend exLockedState (JSVal.vint 5000) false).state.registry =
        ([] : List String) := by
  exact ⟨rfl, rfl⟩

/-- C8 (amended): the registry is mutated only by `acquire` (which can
only insert this instance's entry, on success), by `release` (which can
only remove it), and by `extend`, which removes it exactly when the
script reports no match and never inserts. -/
theorem registry_mutation_classification (s : ProcState) (key : String)
    (responses : List Bool) (time : JSVal) (res res2 : Bool) :
    ((Lock.acquire s key responses).state.registry = s.registry
      ∨ (Lock.acquire s key responses).state.registry =
          registryInsert s.lock.id s.registry)
    ∧ ((Lock.release s res).state.registry = s.registry
      ∨ (Lock.release s res).state.registry = registryRemove s.lock.id s.registry)
    ∧ ((Lock.extend s time res2).state.registry = s.registry
      ∨ (res2 = false
          ∧ (Lock.extend s time res2).state.registry =
              registryRemove s.lock.id s.registry)) := by
  refine ⟨?_, ?_, ?_⟩
  · unfold Lock.acquire
    split
    · left; rfl
    · split
      · right; rfl
      · left; rfl
      · left; rfl
  · unfold Lock.release
    split
    · left; rfl
    · split
      · right; rfl
      · right; rfl
  · unfold Lock.extend
    split
    · left; rfl
    · split
      · left; rfl
      · split
        · left; rfl
        · next hres =>
          right
          refine ⟨?_, rfl⟩
          cases res2
          · rfl
          · exact absurd rfl hres

/-- Helper for C7: `parseInt` of a string is always an integral number
or `NaN`, never a string. -/
theorem parseIntStr_shape (s : String) :
    (∃ m : Int, parseIntStr s = JSVal.vint m) ∨ parseIntStr s = JSVal.vnan := by
  unfold parseIntStr parseIntChars
  split
  · cases hd : digitsPrefixVal _ none <;> simp [hd]
  · cases hd : digitsPrefixVal _ none <;> simp [hd]
  · cases hd : digitsPrefixVal _ none <;> simp [hd]

/-- Helper for C7: the `time !== parseInt(time, 10)` test fails (is
satisfied, forcing the error) on every string. -/
theorem jsStrictEq_str_parseInt (str : String) :
    jsStrictEq (JSVal.vstr str) (jsParseInt (JSVal.vstr str)) = false := by
  rcases parseIntStr_shape str with ⟨m, hm⟩ | hm <;>
    simp [jsParseInt, hm, jsStrictEq]

/-- C7 counterexample: `-5` is not a positive integer, yet
`extend(-5)` on a held lock passes the `!time || time !==
parseInt(time, 10)` validation, invokes the conditional script, and can
succeed — it does not fail with the integer-time `LockExtendError`. -/
theorem Lock.extend_negative_time_cex :
    ¬ (0 < (-5 : Int))
    ∧ Lock.extend exLockedState (JSVal.vint (-5)) true =
        { outcome := Except.ok (), state := exLockedState, scriptCalls := 1 } := by
  exact ⟨by decide, rfl⟩

/-- C7 (amended): `extend` fails with `LockExtendError "Int time is
required to extend lock"` — leaving the instance state, key and
registry untouched and invoking no script — exactly when the argument
is not a nonzero integral number: zero, `NaN`, strings, booleans,
`null` and `undefined` are all rejected, while every nonzero integer,
including negative ones, passes the validation. -/
theorem Lock.extend_time_validation (s : ProcState) (time : JSVal) (res : Bool) :
    (Lock.extend s time res =
      { outcome := Except.error (RLError.lockExtendError "Int time is required to extend lock"),
        state := s, scriptCalls := 0 })
    ↔ ¬ ∃ n : Int, n ≠ 0 ∧ time = JSVal.vint n := by
  have hval : ∀ t : JSVal,
      (jsTruthy t = false ∨ jsStrictEq t (jsParseInt t) = false) →
      Lock.extend s t res =
        { outcome := Except.error (RLError.lockExtendError "Int time is required to extend lock"),
          state := s, scriptCalls := 0 } := by
    intro t ht
    unfold Lock.extend
    rw [if_pos ht]
  have hne : ∀ n : Int, n ≠ 0 →
      ¬ (Lock.extend s (JSVal.vint n) res =
        { outcome := Except.error (RLError.lockExtendError "Int time is required to extend lock"),
          state := s, scriptCalls := 0 }) := by
    intro n hn hEq
    have hcond : ¬ (jsTruthy (JSVal.vint n) = false ∨
        jsStrictEq (JSVal.vint n) (jsParseInt (JSVal.vint n)) = false) := by
      simp [jsTruthy, jsStrictEq, jsParseInt, hn]
    unfold Lock.extend at hEq
    rw [if_neg hcond] at hEq
    by_cases hl : s.lock.locked = false
    · rw [if_pos hl] at hEq
      have houtcome := congrArg OpResult.outcome hEq
      simp only [Except.error.injEq, RLError.lockExtendError.injEq] at houtcome
      exact absurd houtcome (by decide)
    · rw [if_neg hl] at hEq
      cases res with
      | true =>
        rw [if_pos rfl] at hEq
        have hcount := congrArg OpResult.scriptCalls hEq
        simp at hcount
      | false =>
        rw [if_neg (by simp)] at hEq
        have hcount := congrArg OpResult.scriptCalls hEq
        simp at hcount
  cases time with
  | vint n =>
    by_cases hn : n = 0
    · subst hn
      have h1 := hval (JSVal.vint 0) (Or.inl (by simp [jsTruthy]))
      constructor
      · rintro _ ⟨m, hm, he⟩
        injection he with h0
        exact hm h0.symm
      · intro _
        exact h1
    · constructor
      · intro hEq
        exact absurd hEq (hne n hn)
      · intro hcon
        exact absurd ⟨n, hn, rfl⟩ hcon
  | vnan =>
    have h1 := hval JSVal.vnan (Or.inl rfl)
    exact ⟨fun _ ⟨m, hm, he⟩ => JSVal.noConfusion he, fun _ => h1⟩
  | vstr str =>
    have h1 := hval (JSVal.vstr str) (Or.inr (jsStrictEq_str_parseInt str))
    exact ⟨fun _ ⟨m, hm, he⟩ => JSVal.noConfusion he, fun _ => h1⟩
  | vbool b =>
    have h1 := hval (JSVal.vbool b) (Or.inr (by cases b <;> rfl))
    exact ⟨fun _ ⟨m, hm, he⟩ => JSVal.noConfusion he, fun _ => h1⟩
  | vnull =>
    have h1 := hval JSVal.vnull (Or.inl rfl)
    exact ⟨fun _ ⟨m, hm, he⟩ => JSVal.noConfusion he, fun _ => h1⟩
  | vundef =>
    have h1 := hval JSVal.vundef (Or.inl rfl)
    exact ⟨fun _ ⟨m, hm, he⟩ => JSVal.noConfusion he, fun _ => h1⟩

/-- C9: `setDefaults` iterates only over the keys already present in
`Lock._defaults` (`timeout`, `retries`, `delay`): the key set of the
defaults record is unchanged (unrecognized option keys are silently
ignored and never added), each recognized key that is supplied with a
non-null, non-undefined value is overwritten with `parseInt` of that
value, and every other entry is left as it was; the function is total,
so no input object can make the call fail. -/
theorem setDefaults_recognized_keys (dflts : List (String × JSVal))
    (options : String → JSVal) (k : String) :
    (setDefaults dflts options).map Prod.fst = dflts.map Prod.fst
    ∧ lookupVal k (setDefaults dflts options) =
        (lookupVal k dflts).map (fun old =>
          if options k = JSVal.vnull ∨ options k = JSVal.vundef then old
          else jsParseInt (options k))
    ∧ lockDefaults.map Prod.fst = ["timeout", "retries", "delay"] := by
  refine ⟨?_, ?_, rfl⟩
  · induction dflts with
    | nil => rfl
    | cons p rest ih =>
      simp only [setDefaults, List.map_cons] at ih ⊢
      congr 1
      split <;> rfl
  · induction dflts with
    | nil => rfl
    | cons p rest ih =>
      by_cases hk : p.1 = k
      · subst hk
        by_cases hC : options p.1 = JSVal.vnull ∨ options p.1 = JSVal.vundef
        · simp [setDefaults, lookupVal, List.find?, hC]
        · simp [setDefaults, lookupVal, List.find?, hC]
      · simp only [setDefaults, List.map_cons, lookupVal] at ih ⊢
        rw [List.find?_cons_of_neg, List.find?_cons_of_neg]
        · exact ih
        · simp [hk]
        · split <;> simp [hk]
